import Mathlib

/-!
Verification of the fallout resolution workflow found in this repository
(files `activation.py`, `act.py`, `act-3.py`).  The sqlite tables
(`orders`, `esims`, `switches`, `order_logs`) are embedded as lists of
rows inside a `Store`; each `TelecomAPI` static method becomes a pure
function `Store → Result × Store`.  Generated values (timestamps, uuid
based log ids and activation codes) are threaded in as parameters.
Python truthiness of optional strings (`if resolved_by:`) is modelled by
`pyTruthy`, which is false both for `None` and for the empty string.
-/

namespace Fallout

/-- A row of the `orders` table (the columns the workflow touches). -/
structure OrderRow where
  order_id : String
  status : String
  fallout_reason : Option String
  resolved_by : Option String
  resolution_time : Option String
  updated_at : String
deriving DecidableEq

/-- A row of the `esims` table. -/
structure EsimRow where
  esim_id : String
  order_id : String
  status : String
  profile_status : String
  activation_code : Option String
deriving DecidableEq

/-- A row of the `switches` table. -/
structure SwitchRow where
  switch_id : String
  order_id : String
  switch_name : String
  port_id : String
  config_status : String
  last_updated : String
deriving DecidableEq

/-- A row of the `order_logs` table. -/
structure LogRow where
  log_id : String
  order_id : String
  event_type : String
  description : String
  created_at : String
deriving DecidableEq

/-- The sqlite database the `TelecomAPI` methods read and write. -/
structure Store where
  orders : List OrderRow
  esims : List EsimRow
  switches : List SwitchRow
  logs : List LogRow
deriving DecidableEq

/-- Result dict returned by the API methods: the `success` and `message`
fields, which are the ones the orchestration layer inspects. -/
structure HandlerResult where
  success : Bool
  message : String
deriving DecidableEq

/-- Python truthiness of an optional string: `None` and `""` are falsy. -/
def pyTruthy : Option String → Bool
  | none => false
  | some s => !(s == "")

/-- `SELECT ... FROM orders WHERE order_id = ?` (first row). -/
def findOrder (st : Store) (oid : String) : Option OrderRow :=
  st.orders.find? (fun o => o.order_id == oid)

/-- `SELECT ... FROM esims WHERE order_id = ?` (first row). -/
def findEsim (st : Store) (oid : String) : Option EsimRow :=
  st.esims.find? (fun e => e.order_id == oid)

/-- `SELECT ... FROM switches WHERE order_id = ?` (first row). -/
def findSwitch (st : Store) (oid : String) : Option SwitchRow :=
  st.switches.find? (fun s => s.order_id == oid)

/-- Status column of the order row for `oid`, if any. -/
def orderStatus (st : Store) (oid : String) : Option String :=
  (findOrder st oid).map (fun o => o.status)

/-- `resolved_by` column of the order row for `oid`, if any. -/
def orderResolvedBy (st : Store) (oid : String) : Option (Option String) :=
  (findOrder st oid).map (fun o => o.resolved_by)

/-- Status column of the eSIM row owned by `oid`, if any. -/
def esimStatus (st : Store) (oid : String) : Option String :=
  (findEsim st oid).map (fun e => e.status)

/-- `TelecomAPI.update_order_status` (activation.py lines 352-378, same
field semantics in act.py lines 416-459): unconditionally overwrites
`status`, `fallout_reason`, `resolved_by`, `resolution_time` and
`updated_at` of the matching row; `resolution_time` is set to `now`
only when the `resolved_by` argument is truthy.  Returns
`rowcount > 0`. -/
def updateOrderStatus (st : Store) (oid status : String)
    (fallout_reason resolved_by : Option String) (now : String) :
    Bool × Store :=
  let resolution_time : Option String :=
    if pyTruthy resolved_by then some now else none
  let newOrders := st.orders.map (fun o =>
    if o.order_id == oid then
      { o with status := status, fallout_reason := fallout_reason,
               resolved_by := resolved_by,
               resolution_time := resolution_time, updated_at := now }
    else o)
  (st.orders.any (fun o => o.order_id == oid), { st with orders := newOrders })

/-- `TelecomAPI.resubmit_order` (activation.py lines 381-425): checks the
order exists, is `Failed` and has reason `NOT_SENT_FOR_ACTIVATION`;
on success updates the order to `Completed` with
`resolved_by = "resubmission_agent"` and appends one
`ORDER_RESUBMITTED` log entry. -/
def resubmitOrder (st : Store) (oid logId now : String) :
    HandlerResult × Store :=
  match findOrder st oid with
  | none => (⟨false, "Order not found"⟩, st)
  | some o =>
    if o.status ≠ "Failed" then
      (⟨false, "Order is not in Failed state. Current status: " ++ o.status⟩, st)
    else if o.fallout_reason ≠ some "NOT_SENT_FOR_ACTIVATION" then
      (⟨false, "Order fallout reason is not NOT_SENT_FOR_ACTIVATION"⟩, st)
    else
      let st1 := (updateOrderStatus st oid "Completed" none
        (some "resubmission_agent") now).2
      let st2 := { st1 with logs := st1.logs ++
        [⟨logId, oid, "ORDER_RESUBMITTED",
          "Order was successfully resubmitted for activation", now⟩] }
      (⟨true, "Order successfully resubmitted for activation"⟩, st2)

/-- `TelecomAPI.reprovision_esim` (activation.py lines 428-494, same
checks and effects in act.py lines 518-590): checks the order exists,
is `Failed`, has reason `ESIM_ISSUE` and owns an eSIM row; on success
sets the eSIM row to `status = "Active"`, `profile_status =
"Installed"` with a fresh activation code, updates the order to
`Completed` with `resolved_by = "esim_agent"` and appends one
`ESIM_REPROVISIONED` log entry. -/
def reprovisionEsim (st : Store) (oid logId now actCode : String) :
    HandlerResult × Store :=
  match findOrder st oid with
  | none => (⟨false, "Order not found"⟩, st)
  | some o =>
    if o.status ≠ "Failed" then
      (⟨false, "Order is not in Failed state. Current status: " ++ o.status⟩, st)
    else if o.fallout_reason ≠ some "ESIM_ISSUE" then
      (⟨false, "Order fallout reason is not ESIM_ISSUE"⟩, st)
    else
      match findEsim st oid with
      | none => (⟨false, "No eSIM found for this order"⟩, st)
      | some e =>
        let newEsims := st.esims.map (fun x =>
          if x.esim_id == e.esim_id then
            { x with status := "Active", profile_status := "Installed",
                     activation_code := some actCode }
          else x)
        let st1 := { st with esims := newEsims }
        let st2 := (updateOrderStatus st1 oid "Completed" none
          (some "esim_agent") now).2
        let st3 := { st2 with logs := st2.logs ++
          [⟨logId, oid, "ESIM_REPROVISIONED",
            "eSIM was successfully reprovisioned with new activation code", now⟩] }
        (⟨true, "eSIM successfully reprovisioned"⟩, st3)

/-- `TelecomAPI.reconfigure_switch` (activation.py lines 497-561):
checks the order exists, is `Failed`, has reason `SWITCH_ISSUE` and
owns a switch row; on success sets the switch row to
`config_status = "Configured"`, updates the order to `Completed` with
`resolved_by = "switch_agent"` and appends one `SWITCH_RECONFIGURED`
log entry. -/
def reconfigureSwitch (st : Store) (oid logId now : String) :
    HandlerResult × Store :=
  match findOrder st oid with
  | none => (⟨false, "Order not found"⟩, st)
  | some o =>
    if o.status ≠ "Failed" then
      (⟨false, "Order is not in Failed state. Current status: " ++ o.status⟩, st)
    else if o.fallout_reason ≠ some "SWITCH_ISSUE" then
      (⟨false, "Order fallout reason is not SWITCH_ISSUE"⟩, st)
    else
      match findSwitch st oid with
      | none => (⟨false, "No switch configuration found for this order"⟩, st)
      | some sw =>
        let newSwitches := st.switches.map (fun x =>
          if x.switch_id == sw.switch_id then
            { x with config_status := "Configured", last_updated := now }
          else x)
        let st1 := { st with switches := newSwitches }
        let st2 := (updateOrderStatus st1 oid "Completed" none
          (some "switch_agent") now).2
        let st3 := { st2 with logs := st2.logs ++
          [⟨logId, oid, "SWITCH_RECONFIGURED",
            "Switch was successfully reconfigured", now⟩] }
        (⟨true, "Switch successfully reconfigured"⟩, st3)

/-- `TelecomAPI.mark_for_human_intervention` (activation.py lines
564-603): if the order exists, appends one `HUMAN_INTERVENTION_NEEDED`
log entry (notes appended to the description when truthy) and touches
only the order's `updated_at` column. -/
def markForHumanIntervention (st : Store) (oid : String)
    (notes : Option String) (logId now : String) :
    HandlerResult × Store :=
  match findOrder st oid with
  | none => (⟨false, "Order not found"⟩, st)
  | some _ =>
    let description : String :=
      if pyTruthy notes then
        "Order marked for human intervention: " ++ notes.getD ""
      else "Order marked for human intervention"
    let entry : LogRow :=
      ⟨logId, oid, "HUMAN_INTERVENTION_NEEDED", description, now⟩
    let st1 : Store := { st with logs := st.logs ++ [entry] }
    let st2 : Store := { st1 with orders := st1.orders.map (fun o =>
      if o.order_id == oid then { o with updated_at := now } else o) }
    (⟨true, "Order marked for human intervention"⟩, st2)

/-- `TelecomAPI.mark_for_human_intervention` of act.py (lines 666-709):
like the activation.py variant, but the order update also sets
`resolved_by = 'human_agent'` ("Mark as resolved by human_agent for
tracking") while leaving `status` untouched. -/
def actMarkForHumanIntervention (st : Store) (oid notes logId now : String) :
    HandlerResult × Store :=
  match findOrder st oid with
  | none => (⟨false, "Order not found"⟩, st)
  | some _ =>
    let description : String :=
      "Order marked for human intervention. Notes: " ++ notes
    let entry : LogRow :=
      ⟨logId, oid, "HUMAN_INTERVENTION_NEEDED", description, now⟩
    let st1 : Store := { st with logs := st.logs ++ [entry] }
    let st2 : Store := { st1 with orders := st1.orders.map (fun o =>
      if o.order_id == oid then
        { o with updated_at := now, resolved_by := some "human_agent" }
      else o) }
    (⟨true, "Order successfully marked for human intervention."⟩, st2)

/-- `route_to_specialist` (activation.py lines 966-977): the
`fallout_type` state field decides the next node; anything other than
the three automated categories (including `None`) goes to
`human_agent`. -/
def routeToSpecialist (fallout_type : Option String) : String :=
  if fallout_type == some "NOT_SENT_FOR_ACTIVATION" then "resubmission_agent"
  else if fallout_type == some "ESIM_ISSUE" then "esim_agent"
  else if fallout_type == some "SWITCH_ISSUE" then "switch_agent"
  else "human_agent"

/-- `route_from_master` (act.py lines 1104-1122): like
`route_to_specialist`, but the sentinel value `NOT_FAILED` (written
into `fallout_type` when the order's status is not `Failed`) routes to
`__end__`; everything else unknown, including `OTHER_ISSUE` and
`None`, goes to `human_agent`. -/
def routeFromMaster (fallout_type : Option String) : String :=
  if fallout_type == some "NOT_SENT_FOR_ACTIVATION" then "resubmission_agent"
  else if fallout_type == some "ESIM_ISSUE" then "esim_agent"
  else if fallout_type == some "SWITCH_ISSUE" then "switch_agent"
  else if fallout_type == some "NOT_FAILED" then "__end__"
  else "human_agent"

/-- The node names the three automated handlers and the escalation
handler are registered under in both graphs. -/
def handlerNames : List String :=
  ["resubmission_agent", "esim_agent", "switch_agent", "human_agent"]

/-- Nodes of the act-3.py `StateGraph` (lines 243-284). -/
inductive GNode where
  | master
  | resubmission
  | esim
  | switch
  | validation
  | human
  | done
deriving DecidableEq

/-- Routing out of the `master` node (act-3.py lines 153-155 with the
conditional edges of lines 256-265): the parsed decision is followed
when it names one of the three specialist agents, otherwise the next
node is `human`. -/
def masterRoute (decision : String) : GNode :=
  if decision == "resubmission" then .resubmission
  else if decision == "esim" then .esim
  else if decision == "switch" then .switch
  else .human

/-- Routing out of the `validation` node (act-3.py lines 198-199 with
the conditional edges of lines 272-279): `next_step` is `completed`
(END) exactly when the parsed validator decision is `success`; every
other decision — including `retry` — routes to `human`. -/
def validationRoute (decision : String) : GNode :=
  if decision == "success" then .done else .human

/-- One transition of the act-3.py graph, parameterised by the
classifier decision `cd` (consumed at `master`) and the validator
decision `vd` (consumed at `validation`).  The three specialist nodes
have unconditional edges to `validation` (lines 268-269) and `human`
has an unconditional edge to END (line 281). -/
def gstep (cd vd : String) : GNode → GNode
  | .master => masterRoute cd
  | .resubmission => .validation
  | .esim => .validation
  | .switch => .validation
  | .validation => validationRoute vd
  | .human => .done
  | .done => .done

/-- The run of the act-3.py graph from the entry point `master`. -/
def traceNode (cd vd : String) : Nat → GNode
  | 0 => .master
  | n + 1 => gstep cd vd (traceNode cd vd n)

/-- Whether a node is one of the three automated Handler nodes. -/
def handlerNode : GNode → Bool
  | .resubmission => true
  | .esim => true
  | .switch => true
  | _ => false

/-- Nodes of the activation.py `StateGraph` (lines 988-1029): there is
no validation node at all — specialists route straight to END or to
`human_agent`. -/
inductive ANode where
  | master
  | resubmission
  | esim
  | switch
  | human
  | done
deriving DecidableEq

/-- The node registered under the name `route_to_specialist` returns
(activation.py lines 991-995): the graph maps each returned name to
the node added under that name. -/
def aNodeOfName (s : String) : ANode :=
  if s == "resubmission_agent" then .resubmission
  else if s == "esim_agent" then .esim
  else if s == "switch_agent" then .switch
  else .human

/-- Routing out of a specialist node of activation.py (lines 980-981
with the conditional edges of lines 999-1022): `is_resolution_completed`
— the resolution status equals `RESOLVED` — sends the run to END,
anything else to `human_agent`.  There is no edge back to any
specialist. -/
def specialistRoute (resolved : Bool) : ANode :=
  if resolved then .done else .human

/-- One transition of the activation.py graph, parameterised by the
category `ft` the master agent stored in `fallout_type` (consumed at
`master` through the real `route_to_specialist`) and by whether the
specialist's attempt left `resolution_status = RESOLVED` (consumed at
the specialist nodes).  `human_agent` has an unconditional edge to END
(line 1023). -/
def astep (ft : Option String) (resolved : Bool) : ANode → ANode
  | .master => aNodeOfName (routeToSpecialist ft)
  | .resubmission => specialistRoute resolved
  | .esim => specialistRoute resolved
  | .switch => specialistRoute resolved
  | .human => .done
  | .done => .done

/-- The run of the activation.py graph from the entry point
`master_agent` (line 1026). -/
def aTrace (ft : Option String) (resolved : Bool) : Nat → ANode
  | 0 => .master
  | n + 1 => astep ft resolved (aTrace ft resolved n)

/-- Whether an activation.py node is one of the three automated
Handler nodes. -/
def aHandlerNode : ANode → Bool
  | .resubmission => true
  | .esim => true
  | .switch => true
  | _ => false

/-- Precondition of the Resubmission handler as the spec states it:
the order exists, `status == Failed` and
`fallout_category == NotSentForActivation`. -/
def resubmitPre (st : Store) (oid : String) : Bool :=
  match findOrder st oid with
  | none => false
  | some o =>
    o.status == "Failed" && o.fallout_reason == some "NOT_SENT_FOR_ACTIVATION"

/-- The spec's Order invariant: `resolved_by` is non-null iff
`status == Completed`, stated for one row. -/
def rbInvariant (o : OrderRow) : Bool :=
  o.resolved_by.isSome == (o.status == "Completed")

/-- The invariant over a whole store. -/
def storeInvariant (st : Store) : Bool :=
  st.orders.all rbInvariant

/-- `find?` commutes with a rewrite `g` that does not change the value
of the search predicate: the first match of the rewritten list is the
rewritten first match.  This is the shape of every sqlite `UPDATE ...
WHERE` in the embedding. -/
theorem find?_map_pres {α : Type} (l : List α) (p : α → Bool) (g : α → α)
    (h : ∀ a, p (g a) = p a) : (l.map g).find? p = (l.find? p).map g := by
  induction l with
  | nil => rfl
  | cons a l ih =>
    by_cases hpa : p a = true
    · rw [List.map_cons, List.find?_cons_of_pos _ (by rw [h]; exact hpa),
          List.find?_cons_of_pos _ hpa, Option.map_some']
    · rw [List.map_cons,
          List.find?_cons_of_neg _ (by rw [h]; simpa using hpa),
          List.find?_cons_of_neg _ (by simpa using hpa), ih]

/-- No node of the act-3.py graph ever steps back to `master`. -/
theorem gstep_ne_master (cd vd : String) (g : GNode) :
    gstep cd vd g ≠ GNode.master := by
  cases g <;> simp only [gstep, masterRoute, validationRoute] <;>
    first
    | (split_ifs <;> simp)
    | simp

/-- A Handler node of the act-3.py graph is entered only from `master`:
the specialist nodes lead to `validation`, `validation` leads to END or
`human`, and `human` leads to END. -/
theorem handlerNode_gstep (cd vd : String) (g : GNode)
    (h : handlerNode (gstep cd vd g) = true) : g = GNode.master := by
  revert h
  cases g
  · intro _
    rfl
  all_goals
    (simp only [gstep, handlerNode, validationRoute]
     first
     | (split_ifs <;> simp [handlerNode])
     | simp)

/-- The run of the act-3.py graph is at `master` only at step 0. -/
theorem traceNode_master (cd vd : String) (i : Nat)
    (h : traceNode cd vd i = GNode.master) : i = 0 := by
  cases i with
  | zero => rfl
  | succ n => exact absurd h (gstep_ne_master cd vd (traceNode cd vd n))

/-- No node of the activation.py graph ever steps back to
`master_agent`. -/
theorem astep_ne_master (ft : Option String) (b : Bool) (g : ANode) :
    astep ft b g ≠ ANode.master := by
  cases g <;>
    simp only [astep, specialistRoute, routeToSpecialist, aNodeOfName] <;>
    first
    | (split_ifs <;> simp)
    | simp

/-- A Handler node of the activation.py graph is entered only from
`master_agent`: the specialists route to END or `human_agent`, and
`human_agent` routes to END. -/
theorem aHandlerNode_astep (ft : Option String) (b : Bool) (g : ANode)
    (h : aHandlerNode (astep ft b g) = true) : g = ANode.master := by
  revert h
  cases g
  · intro _
    rfl
  all_goals
    (simp only [astep, aHandlerNode, specialistRoute]
     first
     | (split_ifs <;> simp [aHandlerNode])
     | simp)

/-- The run of the activation.py graph is at `master_agent` only at
step 0. -/
theorem aTrace_master (ft : Option String) (b : Bool) (i : Nat)
    (h : aTrace ft b i = ANode.master) : i = 0 := by
  cases i with
  | zero => rfl
  | succ n => exact absurd h (astep_ne_master ft b (aTrace ft b n))

/-- Specialisation of `find?_map_pres`: when the rewrite is applied
exactly to the rows matched by the search predicate, the first match
of the rewritten list is the rewritten first match. -/
theorem find?_map_update {α : Type} (l : List α) (p : α → Bool) (f : α → α)
    (hf : ∀ a, p (f a) = p a) :
    (l.map (fun a => if p a then f a else a)).find? p = (l.find? p).map f := by
  rw [find?_map_pres l p (fun a => if p a then f a else a) ?_]
  · cases hfind : l.find? p with
    | none => rfl
    | some a =>
      have hpa := List.find?_some hfind
      simp [hpa]
  · intro a
    dsimp only
    by_cases hpa : p a = true
    · rw [if_pos hpa, hf]
    · rw [if_neg hpa]

/-- Row-level effect of `update_order_status`: the looked-up row after
the call is the looked-up row before the call with the five columns
overwritten. -/
theorem findOrder_updateOrderStatus (st : Store) (oid s now : String)
    (fr rb : Option String) :
    findOrder (updateOrderStatus st oid s fr rb now).2 oid =
      (findOrder st oid).map (fun o =>
        { o with status := s, fallout_reason := fr, resolved_by := rb,
                 resolution_time := if pyTruthy rb then some now else none,
                 updated_at := now }) := by
  unfold findOrder updateOrderStatus
  dsimp only
  exact find?_map_update st.orders (fun o => o.order_id == oid) _
    (fun o => rfl)

/-- Appending log rows does not change order lookups. -/
theorem findOrder_setLogs (st : Store) (l : List LogRow) (oid : String) :
    findOrder { st with logs := l } oid = findOrder st oid := rfl

/-- Rewriting the eSIM table does not change order lookups. -/
theorem findOrder_setEsims (st : Store) (es : List EsimRow) (oid : String) :
    findOrder { st with esims := es } oid = findOrder st oid := rfl

/-- Rewriting the switch table does not change order lookups. -/
theorem findOrder_setSwitches (st : Store) (sw : List SwitchRow) (oid : String) :
    findOrder { st with switches := sw } oid = findOrder st oid := rfl

/-- Appending log rows does not change eSIM lookups. -/
theorem findEsim_setLogs (st : Store) (l : List LogRow) (oid : String) :
    findEsim { st with logs := l } oid = findEsim st oid := rfl

/-- `update_order_status` touches only the `orders` table. -/
theorem findEsim_updateOrderStatus (st : Store) (oid s now oid2 : String)
    (fr rb : Option String) :
    findEsim (updateOrderStatus st oid s fr rb now).2 oid2 =
      findEsim st oid2 := rfl

/-- `update_order_status` appends no log rows. -/
theorem logs_updateOrderStatus (st : Store) (oid s now : String)
    (fr rb : Option String) :
    (updateOrderStatus st oid s fr rb now).2.logs = st.logs := rfl

/-- C1 (amended): neither orchestration graph has a retry. In
act-3.py a validation FAIL — even the first one for the category —
routes directly to the `human` escalation node and any run visits a
Handler node at most once (only at step 1); likewise in activation.py
a specialist attempt that does not end `RESOLVED` routes directly to
`human_agent` and any run visits a Handler node at most once.  So in
both graphs the number of invocations of the same Handler in one
fallout episode is at most 1, in particular at most 2. -/
theorem claim_C1_amended (cd vd : String) (ft : Option String) (b : Bool) :
    (∀ d, d ≠ "success" → validationRoute d = GNode.human) ∧
    (∀ i, handlerNode (traceNode cd vd i) = true → i = 1) ∧
    (specialistRoute false = ANode.human) ∧
    (∀ i, aHandlerNode (aTrace ft b i) = true → i = 1) := by
  refine ⟨?_, ?_, rfl, ?_⟩
  · intro d hd
    simp [validationRoute, hd]
  · intro i h
    match i with
    | 0 => simp [traceNode, handlerNode] at h
    | 1 => rfl
    | n + 2 =>
      have h1 : traceNode cd vd (n + 1) = GNode.master :=
        handlerNode_gstep cd vd (traceNode cd vd (n + 1)) h
      exact absurd (traceNode_master cd vd (n + 1) h1) (by simp)
  · intro i h
    match i with
    | 0 => simp [aTrace, aHandlerNode] at h
    | 1 => rfl
    | n + 2 =>
      have h1 : aTrace ft b (n + 1) = ANode.master :=
        aHandlerNode_astep ft b (aTrace ft b (n + 1)) h
      exact absurd (aTrace_master ft b (n + 1) h1) (by simp)

/-- Witness for C1 (amended) at concrete inputs: act-3.py run with
classifier decision `esim` and validator decision `retry`, Handler
node reached at step 1; activation.py run with category `ESIM_ISSUE`
and an unresolved attempt, Handler node reached at step 1. -/
theorem claim_C1_amended_witness :
    validationRoute "retry" = GNode.human ∧ (1 : Nat) = 1 ∧
    specialistRoute false = ANode.human ∧ (1 : Nat) = 1 :=
  ⟨(claim_C1_amended "esim" "retry" (some "ESIM_ISSUE") false).1 "retry"
      (by decide),
   (claim_C1_amended "esim" "retry" (some "ESIM_ISSUE") false).2.1 1
      (by decide),
   (claim_C1_amended "esim" "retry" (some "ESIM_ISSUE") false).2.2.1,
   (claim_C1_amended "esim" "retry" (some "ESIM_ISSUE") false).2.2.2 1
      (by decide)⟩

/-- C1 (counterexample to the claim as stated): with classifier
decision `esim` the run reaches the eSIM Handler at step 1 and
`validation` at step 2; after a first validation FAIL (decision
`retry`, not `success`) the next node is `human`, not the eSIM Handler
again — the orchestrator never re-invokes the same Handler. -/
theorem claim_C1_counterexample :
    traceNode "esim" "retry" 1 = GNode.esim ∧
    traceNode "esim" "retry" 2 = GNode.validation ∧
    validationRoute "retry" = GNode.human ∧
    traceNode "esim" "retry" 3 = GNode.human ∧
    GNode.human ≠ GNode.esim := by
  decide

/-- C2 (amended): dispatch is total and closed with one exception —
activation.py's `route_to_specialist` maps every value of the category
(including `None`, `OTHER_ISSUE` and unknown/future values) to exactly
one registered handler, unknown values only to `human_agent`; act.py's
`route_from_master` does the same for every value except the single
sentinel `NOT_FAILED`, which routes to `__end__` and reaches no
handler at all. -/
theorem claim_C2_amended (v : Option String) :
    routeToSpecialist v ∈ handlerNames ∧
    (v ∉ [some "NOT_SENT_FOR_ACTIVATION", some "ESIM_ISSUE",
          some "SWITCH_ISSUE"] → routeToSpecialist v = "human_agent") ∧
    (v ≠ some "NOT_FAILED" → routeFromMaster v ∈ handlerNames) ∧
    (v ∉ [some "NOT_SENT_FOR_ACTIVATION", some "ESIM_ISSUE",
          some "SWITCH_ISSUE", some "NOT_FAILED"] →
      routeFromMaster v = "human_agent") := by
  refine ⟨?_, ?_, ?_, ?_⟩
  · unfold routeToSpecialist
    split_ifs <;> decide
  · intro hv
    simp only [List.mem_cons, List.not_mem_nil, or_false, not_or] at hv
    obtain ⟨h1, h2, h3⟩ := hv
    simp [routeToSpecialist, h1, h2, h3]
  · intro hv
    unfold routeFromMaster
    split_ifs with h1 h2 h3 h4
    · decide
    · decide
    · decide
    · exact absurd (by simpa using h4) hv
    · decide
  · intro hv
    simp only [List.mem_cons, List.not_mem_nil, or_false, not_or] at hv
    obtain ⟨h1, h2, h3, h4⟩ := hv
    simp [routeFromMaster, h1, h2, h3, h4]

/-- Witness for C2 (amended) at the concrete unknown category value
`FUTURE_X`: both routers send it to `human_agent` only. -/
theorem claim_C2_amended_witness :
    routeToSpecialist (some "FUTURE_X") = "human_agent" ∧
    routeFromMaster (some "FUTURE_X") = "human_agent" :=
  ⟨(claim_C2_amended (some "FUTURE_X")).2.1 (by decide),
   (claim_C2_amended (some "FUTURE_X")).2.2.2 (by decide)⟩

/-- C2 (counterexample to the claim as stated): the value `NOT_FAILED`
is outside the known category set, yet act.py's `route_from_master`
resolves it to `__end__`, which is not the HumanEscalation handler and
not a registered handler at all — so not every out-of-set value
resolves to HumanEscalation. -/
theorem claim_C2_counterexample :
    routeFromMaster (some "NOT_FAILED") = "__end__" ∧
    routeFromMaster (some "NOT_FAILED") ≠ "human_agent" ∧
    "__end__" ∉ handlerNames := by
  decide

/-- C3 (confirmed): the Resubmission handler re-verifies its
precondition before mutating anything: it returns `success = true` and
sets the order's status to `Completed` exactly when the order exists
with `status == Failed` and
`fallout_category == NotSentForActivation`; for any order not
satisfying the precondition it returns `success = false`. -/
theorem claim_C3_resubmission_precondition (st : Store) (oid logId now : String) :
    ((resubmitOrder st oid logId now).1.success = true ↔
      resubmitPre st oid = true) ∧
    (resubmitPre st oid = true →
      orderStatus (resubmitOrder st oid logId now).2 oid = some "Completed") := by
  cases hf : findOrder st oid with
  | none =>
    constructor
    · simp [resubmitOrder, resubmitPre, hf]
    · intro hpre
      simp [resubmitPre, hf] at hpre
  | some o =>
    by_cases hs : o.status = "Failed"
    · by_cases hr : o.fallout_reason = some "NOT_SENT_FOR_ACTIVATION"
      · constructor
        · simp [resubmitOrder, resubmitPre, hf, hs, hr]
        · intro _
          unfold resubmitOrder
          rw [hf]
          dsimp only
          rw [if_neg (by simp [hs]), if_neg (by simp [hr])]
          unfold orderStatus
          rw [findOrder_setLogs, findOrder_updateOrderStatus, hf]
          simp
      · constructor
        · simp [resubmitOrder, resubmitPre, hf, hs, hr]
        · intro hpre
          simp [resubmitPre, hf, hr] at hpre
    · constructor
      · simp [resubmitOrder, resubmitPre, hf, hs]
      · intro hpre
        simp [resubmitPre, hf, hs] at hpre

/-- Witness for C3 on a concrete failed order with reason
`NOT_SENT_FOR_ACTIVATION` and on which the precondition holds. -/
theorem claim_C3_resubmission_precondition_witness :
    resubmitPre
        ⟨[⟨"ORD-001", "Failed", some "NOT_SENT_FOR_ACTIVATION", none, none,
           "t0"⟩], [], [], []⟩ "ORD-001" = true ∧
    orderStatus (resubmitOrder
        ⟨[⟨"ORD-001", "Failed", some "NOT_SENT_FOR_ACTIVATION", none, none,
           "t0"⟩], [], [], []⟩ "ORD-001" "LOG-1" "t1").2 "ORD-001" =
      some "Completed" :=
  ⟨by decide,
   (claim_C3_resubmission_precondition
      ⟨[⟨"ORD-001", "Failed", some "NOT_SENT_FOR_ACTIVATION", none, none,
         "t0"⟩], [], [], []⟩ "ORD-001" "LOG-1" "t1").2 (by decide)⟩

/-- C9 (confirmed): whenever `resubmit_order`, `reprovision_esim` or
`reconfigure_switch` returns `success = false` (which happens exactly
on the precondition checks: order missing, status not `Failed`, wrong
fallout reason, missing attachment), the store is returned exactly as
it was — no order row, attachment row or log entry has been written. -/
theorem claim_C9_failure_atomicity (st : Store) (oid logId now actCode : String) :
    ((resubmitOrder st oid logId now).1.success = false →
      (resubmitOrder st oid logId now).2 = st) ∧
    ((reprovisionEsim st oid logId now actCode).1.success = false →
      (reprovisionEsim st oid logId now actCode).2 = st) ∧
    ((reconfigureSwitch st oid logId now).1.success = false →
      (reconfigureSwitch st oid logId now).2 = st) := by
  refine ⟨?_, ?_, ?_⟩
  · cases hf : findOrder st oid with
    | none => intro _; simp [resubmitOrder, hf]
    | some o =>
      unfold resubmitOrder
      rw [hf]
      dsimp only
      split_ifs
      · intro _; rfl
      · intro _; rfl
      · intro hcontra; simp at hcontra
  · cases hf : findOrder st oid with
    | none => intro _; simp [reprovisionEsim, hf]
    | some o =>
      unfold reprovisionEsim
      rw [hf]
      dsimp only
      split_ifs
      · intro _; rfl
      · intro _; rfl
      · cases he : findEsim st oid with
        | none => intro _; rfl
        | some e =>
          dsimp only
          intro hcontra
          simp at hcontra
  · cases hf : findOrder st oid with
    | none => intro _; simp [reconfigureSwitch, hf]
    | some o =>
      unfold reconfigureSwitch
      rw [hf]
      dsimp only
      split_ifs
      · intro _; rfl
      · intro _; rfl
      · cases hsw : findSwitch st oid with
        | none => intro _; rfl
        | some sw =>
          dsimp only
          intro hcontra
          simp at hcontra

/-- Witness for C9 on the empty store, where all three handlers fail
with `Order not found` and leave the store untouched. -/
theorem claim_C9_failure_atomicity_witness :
    (resubmitOrder ⟨[], [], [], []⟩ "O" "L" "t").2 = ⟨[], [], [], []⟩ ∧
    (reprovisionEsim ⟨[], [], [], []⟩ "O" "L" "t" "A").2 = ⟨[], [], [], []⟩ ∧
    (reconfigureSwitch ⟨[], [], [], []⟩ "O" "L" "t").2 = ⟨[], [], [], []⟩ :=
  ⟨(claim_C9_failure_atomicity ⟨[], [], [], []⟩ "O" "L" "t" "A").1 (by decide),
   (claim_C9_failure_atomicity ⟨[], [], [], []⟩ "O" "L" "t" "A").2.1 (by decide),
   (claim_C9_failure_atomicity ⟨[], [], [], []⟩ "O" "L" "t" "A").2.2 (by decide)⟩

/-- C10 (amended): `update_order_status` unconditionally overwrites
`status`, `fallout_reason`, `resolved_by` and `resolution_time` with
the supplied arguments (null when omitted) — in particular a call that
omits `fallout_reason` clears any stored category — and after the call
`resolution_time` is non-null if and only if the `resolved_by`
argument was truthy in Python's sense, i.e. non-null AND non-empty. -/
theorem claim_C10_amended (st : Store) (oid s now : String)
    (fr rb : Option String) (o : OrderRow) (h : findOrder st oid = some o) :
    findOrder (updateOrderStatus st oid s fr rb now).2 oid =
      some ({ o with status := s, fallout_reason := fr, resolved_by := rb,
                     resolution_time := (if pyTruthy rb then some now else none),
                     updated_at := now }) ∧
    ((findOrder (updateOrderStatus st oid s fr rb now).2 oid).map
        (fun x => x.resolution_time) = some (some now) ↔
      pyTruthy rb = true) := by
  have h1 := findOrder_updateOrderStatus st oid s now fr rb
  rw [h] at h1
  rw [Option.map_some'] at h1
  refine ⟨h1, ?_⟩
  rw [h1]
  by_cases hrb : pyTruthy rb = true
  · simp [hrb]
  · simp [hrb]

/-- Witness for C10 (amended) on a concrete order updated with a
truthy `resolved_by`. -/
theorem claim_C10_amended_witness :
    findOrder (updateOrderStatus
        ⟨[⟨"O1", "Failed", some "ESIM_ISSUE", none, none, "t0"⟩], [], [], []⟩
        "O1" "Completed" none (some "esim_agent") "t1").2 "O1" =
      some ⟨"O1", "Completed", none, some "esim_agent", some "t1", "t1"⟩ :=
  (claim_C10_amended
      ⟨[⟨"O1", "Failed", some "ESIM_ISSUE", none, none, "t0"⟩], [], [], []⟩
      "O1" "Completed" "t1" none (some "esim_agent")
      ⟨"O1", "Failed", some "ESIM_ISSUE", none, none, "t0"⟩ (by decide)).1

/-- C10 (counterexample to the claim as stated): calling
`update_order_status` with the non-null but empty string as
`resolved_by` stores the empty string in `resolved_by` yet leaves
`resolution_time` null, because Python's `if resolved_by:` is false
for `""` — so `resolution_time` non-null is NOT equivalent to the
`resolved_by` argument being non-null. -/
theorem claim_C10_counterexample :
    (findOrder (updateOrderStatus
        ⟨[⟨"O1", "Failed", some "X", none, none, "t0"⟩], [], [], []⟩
        "O1" "Completed" none (some "") "t1").2 "O1").map
      (fun x => x.resolution_time) = some none ∧
    (findOrder (updateOrderStatus
        ⟨[⟨"O1", "Failed", some "X", none, none, "t0"⟩], [], [], []⟩
        "O1" "Completed" none (some "") "t1").2 "O1").map
      (fun x => x.resolved_by) = some (some "") ∧
    (some "" : Option String) ≠ none := by
  decide

/-- C4 (amended): whenever the eSIM reprovisioning handler returns
`success = true` (no concurrent mutation in this sequential model),
the order's eSIM attachment afterwards has `status == Active` (with a
fresh profile), NOT `Reprovisioned`, and the order has
`status == Completed`. -/
theorem claim_C4_amended (st : Store) (oid logId now actCode : String)
    (h : (reprovisionEsim st oid logId now actCode).1.success = true) :
    esimStatus (reprovisionEsim st oid logId now actCode).2 oid =
      some "Active" ∧
    orderStatus (reprovisionEsim st oid logId now actCode).2 oid =
      some "Completed" := by
  revert h
  cases hf : findOrder st oid with
  | none =>
    intro h
    simp [reprovisionEsim, hf] at h
  | some o =>
    unfold reprovisionEsim
    rw [hf]
    dsimp only
    split_ifs
    · intro h
      simp at h
    · intro h
      simp at h
    · cases he : findEsim st oid with
      | none =>
        intro h
        simp at h
      | some e =>
        dsimp only
        intro _
        constructor
        · unfold esimStatus
          rw [findEsim_setLogs, findEsim_updateOrderStatus]
          unfold findEsim
          dsimp only
          rw [find?_map_pres st.esims (fun x => x.order_id == oid)
            (fun x => if x.esim_id == e.esim_id then
              { x with status := "Active", profile_status := "Installed",
                       activation_code := some actCode } else x)
            (fun a => by dsimp only; split <;> rfl)]
          rw [show st.esims.find? (fun x => x.order_id == oid) = some e from he]
          simp
        · unfold orderStatus
          rw [findOrder_setLogs, findOrder_updateOrderStatus,
              findOrder_setEsims, hf]
          simp

/-- Witness for C4 (amended) on a concrete failed order with an
attached eSIM in state `Failed`. -/
theorem claim_C4_amended_witness :
    esimStatus (reprovisionEsim
        ⟨[⟨"O2", "Failed", some "ESIM_ISSUE", none, none, "t0"⟩],
         [⟨"E1", "O2", "Failed", "Error", none⟩], [], []⟩
        "O2" "L1" "t1" "AC1").2 "O2" = some "Active" :=
  (claim_C4_amended
      ⟨[⟨"O2", "Failed", some "ESIM_ISSUE", none, none, "t0"⟩],
       [⟨"E1", "O2", "Failed", "Error", none⟩], [], []⟩
      "O2" "L1" "t1" "AC1" (by decide)).1

/-- C4 (counterexample to the claim as stated): on a concrete failed
`ESIM_ISSUE` order with an eSIM attachment the handler succeeds, but
the eSIM attachment ends in status `Active`, not the `Reprovisioned`
status the Validator postcondition of the claim requires. -/
theorem claim_C4_counterexample :
    (reprovisionEsim
        ⟨[⟨"ORD-102", "Failed", some "ESIM_ISSUE", none, none, "t0"⟩],
         [⟨"E9", "ORD-102", "Failed", "Error", none⟩], [], []⟩
        "ORD-102" "L1" "t1" "AC1").1.success = true ∧
    esimStatus (reprovisionEsim
        ⟨[⟨"ORD-102", "Failed", some "ESIM_ISSUE", none, none, "t0"⟩],
         [⟨"E9", "ORD-102", "Failed", "Error", none⟩], [], []⟩
        "ORD-102" "L1" "t1" "AC1").2 "ORD-102" = some "Active" ∧
    (some "Active" : Option String) ≠ some "Reprovisioned" := by
  decide

/-- C5 (confirmed): the HumanEscalation handler, invoked on any
existing order, reports success, appends exactly one
`HUMAN_INTERVENTION_NEEDED` log entry, and leaves the order's `status`
column unchanged — in both the activation.py and the act.py variant —
so a `Failed` order stays `Failed`. -/
theorem claim_C5_escalation_frame (st : Store) (oid logId now notesS : String)
    (notes : Option String) (o : OrderRow) (h : findOrder st oid = some o) :
    (markForHumanIntervention st oid notes logId now).1.success = true ∧
    ((markForHumanIntervention st oid notes logId now).2.logs.map
        (fun l => l.event_type) =
      st.logs.map (fun l => l.event_type) ++ ["HUMAN_INTERVENTION_NEEDED"]) ∧
    orderStatus (markForHumanIntervention st oid notes logId now).2 oid =
      some o.status ∧
    (actMarkForHumanIntervention st oid notesS logId now).1.success = true ∧
    ((actMarkForHumanIntervention st oid notesS logId now).2.logs.map
        (fun l => l.event_type) =
      st.logs.map (fun l => l.event_type) ++ ["HUMAN_INTERVENTION_NEEDED"]) ∧
    orderStatus (actMarkForHumanIntervention st oid notesS logId now).2 oid =
      some o.status := by
  refine ⟨?_, ?_, ?_, ?_, ?_, ?_⟩
  · unfold markForHumanIntervention
    rw [h]
  · unfold markForHumanIntervention
    rw [h]
    dsimp only
    simp
  · unfold markForHumanIntervention
    rw [h]
    dsimp only
    unfold orderStatus findOrder
    dsimp only
    rw [find?_map_update st.orders (fun x => x.order_id == oid)
      (fun x => { x with updated_at := now }) (fun a => rfl)]
    rw [show st.orders.find? (fun x => x.order_id == oid) = some o from h]
    simp
  · unfold actMarkForHumanIntervention
    rw [h]
  · unfold actMarkForHumanIntervention
    rw [h]
    dsimp only
    simp
  · unfold actMarkForHumanIntervention
    rw [h]
    dsimp only
    unfold orderStatus findOrder
    dsimp only
    rw [find?_map_update st.orders (fun x => x.order_id == oid)
      (fun x => { x with updated_at := now, resolved_by := some "human_agent" })
      (fun a => rfl)]
    rw [show st.orders.find? (fun x => x.order_id == oid) = some o from h]
    simp

/-- Witness for C5 on a concrete failed order: both escalation
variants leave the status `Failed`. -/
theorem claim_C5_escalation_frame_witness :
    orderStatus (markForHumanIntervention
        ⟨[⟨"ORD-201", "Failed", some "OTHER_ISSUE", none, none, "t0"⟩],
         [], [], []⟩ "ORD-201" (some "weird") "L1" "t1").2 "ORD-201" =
      some "Failed" :=
  (claim_C5_escalation_frame
      ⟨[⟨"ORD-201", "Failed", some "OTHER_ISSUE", none, none, "t0"⟩],
       [], [], []⟩ "ORD-201" "L1" "t1" "notes" (some "weird")
      ⟨"ORD-201", "Failed", some "OTHER_ISSUE", none, none, "t0"⟩
      (by decide)).2.2.1

/-- C7 (amended): on an order with `status == Failed` and
`fallout_category == EsimIssue` but no eSIM attachment, the handler
returns the ordinary result `success = false` with the message
`No eSIM found for this order` (not `No eSIM profile found`), leaving
the store untouched — a reportable outcome, not an exception. -/
theorem claim_C7_amended (st : Store) (oid logId now actCode : String)
    (o : OrderRow) (hf : findOrder st oid = some o)
    (hs : o.status = "Failed") (hr : o.fallout_reason = some "ESIM_ISSUE")
    (he : findEsim st oid = none) :
    reprovisionEsim st oid logId now actCode =
      (⟨false, "No eSIM found for this order"⟩, st) := by
  unfold reprovisionEsim
  rw [hf]
  dsimp only
  rw [if_neg (by simp [hs]), if_neg (by simp [hr]), he]

/-- Witness for C7 (amended) on the concrete order `ORD-002b` of the
spec's second example scenario shape. -/
theorem claim_C7_amended_witness :
    reprovisionEsim
        ⟨[⟨"ORD-002b", "Failed", some "ESIM_ISSUE", none, none, "t0"⟩],
         [], [], []⟩ "ORD-002b" "L1" "t1" "AC1" =
      (⟨false, "No eSIM found for this order"⟩,
       ⟨[⟨"ORD-002b", "Failed", some "ESIM_ISSUE", none, none, "t0"⟩],
        [], [], []⟩) :=
  claim_C7_amended
    ⟨[⟨"ORD-002b", "Failed", some "ESIM_ISSUE", none, none, "t0"⟩],
     [], [], []⟩ "ORD-002b" "L1" "t1" "AC1"
    ⟨"ORD-002b", "Failed", some "ESIM_ISSUE", none, none, "t0"⟩
    (by decide) (by decide) (by decide) (by decide)

/-- C7 (counterexample to the claim as stated): the descriptive
message of the missing-attachment failure is
`No eSIM found for this order`, not the `No eSIM profile found` the
claim quotes. -/
theorem claim_C7_counterexample :
    (reprovisionEsim
        ⟨[⟨"ORD-002", "Failed", some "ESIM_ISSUE", none, none, "t0"⟩],
         [], [], []⟩ "ORD-002" "L" "t" "A").1 =
      ⟨false, "No eSIM found for this order"⟩ ∧
    "No eSIM found for this order" ≠ "No eSIM profile found" := by
  decide

/-- Appending log rows does not affect the `resolved_by` invariant. -/
theorem storeInvariant_setLogs (st : Store) (l : List LogRow) :
    storeInvariant { st with logs := l } = storeInvariant st := rfl

/-- Rewriting the eSIM table does not affect the `resolved_by`
invariant. -/
theorem storeInvariant_setEsims (st : Store) (es : List EsimRow) :
    storeInvariant { st with esims := es } = storeInvariant st := rfl

/-- Rewriting the switch table does not affect the `resolved_by`
invariant. -/
theorem storeInvariant_setSwitches (st : Store) (sw : List SwitchRow) :
    storeInvariant { st with switches := sw } = storeInvariant st := rfl

/-- The success-path `update_order_status` call shared by the three
automated handlers — status `Completed` together with a non-empty
`resolved_by` — preserves the `resolved_by ↔ Completed` invariant. -/
theorem storeInvariant_updateCompleted (st : Store) (oid now agent : String)
    (h : storeInvariant st = true) :
    storeInvariant
      (updateOrderStatus st oid "Completed" none (some agent) now).2 = true := by
  rw [show storeInvariant st = st.orders.all rbInvariant from rfl,
      List.all_eq_true] at h
  unfold updateOrderStatus storeInvariant
  dsimp only
  rw [List.all_map, List.all_eq_true]
  intro o ho
  have hinv := h o ho
  dsimp only [Function.comp]
  split
  · simp [rbInvariant]
  · exact hinv

/-- C6 (amended): the `resolved_by` non-null ⟺ `status == Completed`
biconditional is preserved by the success and failure paths of all
three automated handlers and by activation.py's escalation handler;
but act.py's escalation handler is a genuine exception: on any
existing order it writes `resolved_by = 'human_agent'` while leaving
`status` unchanged, so on a `Failed` order it breaks the
biconditional. -/
theorem claim_C6_amended (st : Store) (oid logId now actCode notesS : String)
    (notes : Option String) (h : storeInvariant st = true) :
    storeInvariant (resubmitOrder st oid logId now).2 = true ∧
    storeInvariant (reprovisionEsim st oid logId now actCode).2 = true ∧
    storeInvariant (reconfigureSwitch st oid logId now).2 = true ∧
    storeInvariant (markForHumanIntervention st oid notes logId now).2 = true ∧
    (∀ o, findOrder st oid = some o →
      orderStatus (actMarkForHumanIntervention st oid notesS logId now).2 oid =
        some o.status ∧
      orderResolvedBy (actMarkForHumanIntervention st oid notesS logId now).2
          oid = some (some "human_agent")) := by
  refine ⟨?_, ?_, ?_, ?_, ?_⟩
  · cases hf : findOrder st oid with
    | none => simpa [resubmitOrder, hf] using h
    | some o =>
      unfold resubmitOrder
      rw [hf]
      dsimp only
      split_ifs
      · exact h
      · exact h
      · rw [storeInvariant_setLogs]
        exact storeInvariant_updateCompleted st oid now "resubmission_agent" h
  · cases hf : findOrder st oid with
    | none => simpa [reprovisionEsim, hf] using h
    | some o =>
      unfold reprovisionEsim
      rw [hf]
      dsimp only
      split_ifs
      · exact h
      · exact h
      · cases he : findEsim st oid with
        | none => exact h
        | some e =>
          dsimp only
          rw [storeInvariant_setLogs]
          exact storeInvariant_updateCompleted _ oid now "esim_agent" h
  · cases hf : findOrder st oid with
    | none => simpa [reconfigureSwitch, hf] using h
    | some o =>
      unfold reconfigureSwitch
      rw [hf]
      dsimp only
      split_ifs
      · exact h
      · exact h
      · cases hsw : findSwitch st oid with
        | none => exact h
        | some sw =>
          dsimp only
          rw [storeInvariant_setLogs]
          exact storeInvariant_updateCompleted _ oid now "switch_agent" h
  · cases hf : findOrder st oid with
    | none => simpa [markForHumanIntervention, hf] using h
    | some o =>
      unfold markForHumanIntervention
      rw [hf]
      dsimp only
      unfold storeInvariant
      dsimp only
      rw [List.all_map]
      rw [show storeInvariant st = st.orders.all rbInvariant from rfl,
          List.all_eq_true] at h
      rw [List.all_eq_true]
      intro x hx
      have hinv := h x hx
      dsimp only [Function.comp]
      split
      · exact hinv
      · exact hinv
  · intro o ho
    constructor
    · unfold actMarkForHumanIntervention
      rw [ho]
      dsimp only
      unfold orderStatus findOrder
      dsimp only
      rw [find?_map_update st.orders (fun x => x.order_id == oid)
        (fun x =>
          { x with updated_at := now, resolved_by := some "human_agent" })
        (fun a => rfl)]
      rw [show st.orders.find? (fun x => x.order_id == oid) = some o from ho]
      simp
    · unfold actMarkForHumanIntervention
      rw [ho]
      dsimp only
      unfold orderResolvedBy findOrder
      dsimp only
      rw [find?_map_update st.orders (fun x => x.order_id == oid)
        (fun x =>
          { x with updated_at := now, resolved_by := some "human_agent" })
        (fun a => rfl)]
      rw [show st.orders.find? (fun x => x.order_id == oid) = some o from ho]
      simp

/-- Witness for C6 (amended) on a concrete store satisfying the
invariant: resubmission keeps the invariant and the act.py escalation
writes `resolved_by = human_agent`. -/
theorem claim_C6_amended_witness :
    storeInvariant (resubmitOrder
        ⟨[⟨"ORD-302", "Failed", some "NOT_SENT_FOR_ACTIVATION", none, none,
           "t0"⟩], [], [], []⟩ "ORD-302" "L1" "t1").2 = true ∧
    orderResolvedBy (actMarkForHumanIntervention
        ⟨[⟨"ORD-302", "Failed", some "NOT_SENT_FOR_ACTIVATION", none, none,
           "t0"⟩], [], [], []⟩ "ORD-302" "n" "L1" "t1").2 "ORD-302" =
      some (some "human_agent") :=
  ⟨(claim_C6_amended
      ⟨[⟨"ORD-302", "Failed", some "NOT_SENT_FOR_ACTIVATION", none, none,
         "t0"⟩], [], [], []⟩ "ORD-302" "L1" "t1" "A" "n" none (by decide)).1,
   ((claim_C6_amended
      ⟨[⟨"ORD-302", "Failed", some "NOT_SENT_FOR_ACTIVATION", none, none,
         "t0"⟩], [], [], []⟩ "ORD-302" "L1" "t1" "A" "n" none
      (by decide)).2.2.2.2
      ⟨"ORD-302", "Failed", some "NOT_SENT_FOR_ACTIVATION", none, none, "t0"⟩
      (by decide)).2⟩

/-- C6 (counterexample to the claim as stated): a store holding one
`Failed`, unresolved order satisfies the invariant, yet after act.py's
escalation handler runs, the order has `resolved_by = human_agent` and
still `status = Failed` — `resolved_by` is non-null while the status
is not `Completed`, so the biconditional is not preserved by every
engine operation. -/
theorem claim_C6_counterexample :
    storeInvariant
      ⟨[⟨"ORD-301", "Failed", some "OTHER_ISSUE", none, none, "t0"⟩],
       [], [], []⟩ = true ∧
    storeInvariant (actMarkForHumanIntervention
        ⟨[⟨"ORD-301", "Failed", some "OTHER_ISSUE", none, none, "t0"⟩],
         [], [], []⟩ "ORD-301" "n" "L1" "t1").2 = false ∧
    orderStatus (actMarkForHumanIntervention
        ⟨[⟨"ORD-301", "Failed", some "OTHER_ISSUE", none, none, "t0"⟩],
         [], [], []⟩ "ORD-301" "n" "L1" "t1").2 "ORD-301" = some "Failed" ∧
    orderResolvedBy (actMarkForHumanIntervention
        ⟨[⟨"ORD-301", "Failed", some "OTHER_ISSUE", none, none, "t0"⟩],
         [], [], []⟩ "ORD-301" "n" "L1" "t1").2 "ORD-301" =
      some (some "human_agent") := by
  decide

/-- C8 (amended): for an order satisfying the Resubmission
precondition, a successful resubmission episode ends with
`status = Completed`, `resolved_by = "resubmission_agent"`, the
fallout category cleared, and exactly ONE log entry appended, with
event type `ORDER_RESUBMITTED`. -/
theorem claim_C8_amended (st : Store) (oid logId now : String)
    (h : resubmitPre st oid = true) :
    orderStatus (resubmitOrder st oid logId now).2 oid = some "Completed" ∧
    orderResolvedBy (resubmitOrder st oid logId now).2 oid =
      some (some "resubmission_agent") ∧
    ((findOrder (resubmitOrder st oid logId now).2 oid).map
        (fun x => x.fallout_reason) = some none) ∧
    ((resubmitOrder st oid logId now).2.logs.map (fun l => l.event_type) =
      st.logs.map (fun l => l.event_type) ++ ["ORDER_RESUBMITTED"]) := by
  cases hf : findOrder st oid with
  | none => simp [resubmitPre, hf] at h
  | some o =>
    rw [show resubmitPre st oid =
        (o.status == "Failed" && o.fallout_reason ==
          some "NOT_SENT_FOR_ACTIVATION") from by rw [resubmitPre, hf]] at h
    simp only [Bool.and_eq_true, beq_iff_eq] at h
    obtain ⟨hs, hr⟩ := h
    unfold resubmitOrder
    rw [hf]
    dsimp only
    rw [if_neg (by simp [hs]), if_neg (by simp [hr])]
    refine ⟨?_, ?_, ?_, ?_⟩
    · unfold orderStatus
      rw [findOrder_setLogs, findOrder_updateOrderStatus, hf]
      simp
    · unfold orderResolvedBy
      rw [findOrder_setLogs, findOrder_updateOrderStatus, hf]
      simp
    · rw [show findOrder { (updateOrderStatus st oid "Completed" none
          (some "resubmission_agent") now).2 with
            logs := (updateOrderStatus st oid "Completed" none
              (some "resubmission_agent") now).2.logs ++
              [⟨logId, oid, "ORDER_RESUBMITTED",
                "Order was successfully resubmitted for activation", now⟩] }
          oid =
        findOrder (updateOrderStatus st oid "Completed" none
          (some "resubmission_agent") now).2 oid from rfl]
      rw [findOrder_updateOrderStatus, hf]
      simp
    · rw [show ({ (updateOrderStatus st oid "Completed" none
          (some "resubmission_agent") now).2 with
            logs := (updateOrderStatus st oid "Completed" none
              (some "resubmission_agent") now).2.logs ++
              [⟨logId, oid, "ORDER_RESUBMITTED",
                "Order was successfully resubmitted for activation", now⟩] }
          : Store).logs =
        st.logs ++ [⟨logId, oid, "ORDER_RESUBMITTED",
          "Order was successfully resubmitted for activation", now⟩] from rfl]
      simp

/-- Witness for C8 (amended) on the concrete order `ORD-001w`. -/
theorem claim_C8_amended_witness :
    orderStatus (resubmitOrder
        ⟨[⟨"ORD-001w", "Failed", some "NOT_SENT_FOR_ACTIVATION", none, none,
           "t0"⟩], [], [], []⟩ "ORD-001w" "LOG-9" "t1").2 "ORD-001w" =
      some "Completed" :=
  (claim_C8_amended
      ⟨[⟨"ORD-001w", "Failed", some "NOT_SENT_FOR_ACTIVATION", none, none,
         "t0"⟩], [], [], []⟩ "ORD-001w" "LOG-9" "t1" (by decide)).1

/-- C8 (counterexample to the claim as stated): running the
resubmission episode on the literal `ORD-001` scenario succeeds and
ends `Completed`, but `resolved_by` is `resubmission_agent` (not
`resubmission`) and exactly one log entry is appended, of type
`ORDER_RESUBMITTED` (not two entries `Dispatched` and `Resolved`). -/
theorem claim_C8_counterexample :
    (resubmitOrder
        ⟨[⟨"ORD-001", "Failed", some "NOT_SENT_FOR_ACTIVATION", none, none,
           "t0"⟩], [], [], []⟩ "ORD-001" "LOG-1" "t1").1.success = true ∧
    orderResolvedBy (resubmitOrder
        ⟨[⟨"ORD-001", "Failed", some "NOT_SENT_FOR_ACTIVATION", none, none,
           "t0"⟩], [], [], []⟩ "ORD-001" "LOG-1" "t1").2 "ORD-001" =
      some (some "resubmission_agent") ∧
    some (some "resubmission_agent") ≠
      (some (some "resubmission") : Option (Option String)) ∧
    (resubmitOrder
        ⟨[⟨"ORD-001", "Failed", some "NOT_SENT_FOR_ACTIVATION", none, none,
           "t0"⟩], [], [], []⟩ "ORD-001" "LOG-1" "t1").2.logs.map
      (fun l => l.event_type) = ["ORDER_RESUBMITTED"] ∧
    (resubmitOrder
        ⟨[⟨"ORD-001", "Failed", some "NOT_SENT_FOR_ACTIVATION", none, none,
           "t0"⟩], [], [], []⟩ "ORD-001" "LOG-1" "t1").2.logs.length = 1 ∧
    (1 : Nat) ≠ 2 := by
  decide

end Fallout
